import Mathlib

/- Verification of the pyuvsim distributed visibility-simulation core.
   Shallow embedding of `pyuvsim/uvsim.py` and `pyuvsim/analyticbeam.py`:
   pure functions become Lean functions, object mutation (the `Source.az_za`
   cache) becomes explicit state passing, Python exceptions become
   `Except String`.  External library calls (astropy coordinate transforms,
   sidereal time, scipy's Bessel J1) are abstracted as fields of an `Astro`
   parameter, since their implementations live outside this repository. -/

set_option autoImplicit false

namespace Pyuvsim

noncomputable section

/- Geometry scalars: positions in meters, angles in radians, times in JD. -/
abbrev Vec3 := ℝ × ℝ × ℝ

/- A visibility 4-vector (xx, yy, xy, yx), complex double in the code. -/
abbrev Vec4 := ℂ × ℂ × ℂ × ℂ

/- astropy EarthLocation: only the latitude is consumed by the core math. -/
structure EarthLoc where
  lat : ℝ
  lon : ℝ
  height : ℝ

/- External (astropy / scipy) functions used by uvsim.py, kept abstract:
   `altAz ra dec time loc` is `SkyCoord(ra, dec).transform_to(AltAz(...))`
   returning `(az.rad, zen.rad)`; `lst` is `time.sidereal_time('apparent')`;
   `cirsRa ra dec time` is `skycoord.transform_to('cirs').ra`; `gast` and
   `era` are the Greenwich apparent sidereal time and earth rotation angle;
   `besselJ1` is `scipy.special.j1`; `fromGeocentric` is
   `EarthLocation.from_geocentric`. -/
structure Astro where
  altAz : ℝ → ℝ → ℝ → EarthLoc → ℝ × ℝ
  lst : ℝ → EarthLoc → ℝ
  cirsRa : ℝ → ℝ → ℝ → ℝ
  gast : ℝ → ℝ
  era : ℝ → ℝ
  besselJ1 : ℝ → ℝ
  fromGeocentric : Vec3 → EarthLoc

/- A 2x2 complex matrix with entries a = [0,0], b = [0,1], c = [1,0],
   d = [1,1]; this is the shape of coherencies and Jones matrices. -/
structure Mat2 where
  a : ℂ
  b : ℂ
  c : ℂ
  d : ℂ

def Mat2.mul (x y : Mat2) : Mat2 :=
  ⟨x.a * y.a + x.b * y.c, x.a * y.b + x.b * y.d,
   x.c * y.a + x.d * y.c, x.c * y.b + x.d * y.d⟩

def Mat2.transpose (x : Mat2) : Mat2 := ⟨x.a, x.c, x.b, x.d⟩

def Mat2.conjTranspose (x : Mat2) : Mat2 :=
  ⟨(starRingEnd ℂ) x.a, (starRingEnd ℂ) x.c,
   (starRingEnd ℂ) x.b, (starRingEnd ℂ) x.d⟩

def Mat2.one : Mat2 := ⟨1, 0, 0, 1⟩

def Mat2.smul (z : ℂ) (x : Mat2) : Mat2 := ⟨z * x.a, z * x.b, z * x.c, z * x.d⟩

/- cirs_to_tee_ra (uvsim.py): tee_ra = cirs_ra + (gast - theta_earth). -/
def cirs_to_tee_ra (A : Astro) (cirsRa t : ℝ) : ℝ :=
  cirsRa + (A.gast t - A.era t)

/- Source (uvsim.py).  `stokes` is the real (I, Q, U, V) 4-vector;
   `coherency_radec` is stored at construction; `az_za` is the mutable
   position cache, `None` until first computed. -/
structure Source where
  name : String
  freq : ℝ
  stokes : ℝ × ℝ × ℝ × ℝ
  ra : ℝ
  dec : ℝ
  coherency_radec : Mat2
  az_za : Option (ℝ × ℝ)

/- Source.__init__: stores the fields and builds
   coherency_radec = .5 * [[I+Q, U-iV], [U+iV, I-Q]]. -/
def mkSource (name : String) (ra dec freq : ℝ) (stokes : ℝ × ℝ × ℝ × ℝ) :
    Source :=
  { name := name, freq := freq, stokes := stokes, ra := ra, dec := dec,
    coherency_radec :=
      ⟨(0.5 : ℂ) * ((stokes.1 : ℂ) + (stokes.2.1 : ℂ)),
       (0.5 : ℂ) * ((stokes.2.2.1 : ℂ) - Complex.I * (stokes.2.2.2 : ℂ)),
       (0.5 : ℂ) * ((stokes.2.2.1 : ℂ) + Complex.I * (stokes.2.2.2 : ℂ)),
       (0.5 : ℂ) * ((stokes.1 : ℂ) - (stokes.2.1 : ℂ))⟩,
    az_za := none }

/- Source.az_za_calc: recomputes (az, zenith-angle) through astropy and
   stores it in the cache, returning the fresh value and updated source. -/
def Source.az_za_calc (s : Source) (A : Astro) (t : ℝ) (loc : EarthLoc) :
    (ℝ × ℝ) × Source :=
  let azza := A.altAz s.ra s.dec t loc
  (azza, { s with az_za := some azza })

/- Source.pos_lmn: uses the cached az_za when present (computing it only
   when absent), applies the horizon mask za > pi/2, and otherwise returns
   the direction cosines (l, m, n). -/
def Source.pos_lmn (s : Source) (A : Astro) (t : ℝ) (loc : EarthLoc) :
    Option (ℝ × ℝ × ℝ) × Source :=
  match s.az_za with
  | none =>
      let r := s.az_za_calc A t loc
      if r.1.2 > Real.pi / 2 then (none, r.2)
      else (some (Real.sin r.1.1 * Real.sin r.1.2,
                  Real.cos r.1.1 * Real.sin r.1.2,
                  Real.cos r.1.2), r.2)
  | some azza =>
      if azza.2 > Real.pi / 2 then (none, s)
      else (some (Real.sin azza.1 * Real.sin azza.2,
                  Real.cos azza.1 * Real.sin azza.2,
                  Real.cos azza.2), s)

/- Source.coherency_calc: for unpolarized sources (sum |stokes[1:]| == 0)
   the rotation is the identity, otherwise the parallactic-angle rotation
   [[cosX, sinX], [-sinX, cosX]]; returns R^T * C_radec * R. -/
open Classical in
def Source.coherency_calc (s : Source) (A : Astro) (t : ℝ) (loc : EarthLoc) :
    Mat2 :=
  let rotation :=
    if |s.stokes.2.1| + |s.stokes.2.2.1| + |s.stokes.2.2.2| = 0 then Mat2.one
    else
      let lst := A.lst t loc
      let tee_ra := cirs_to_tee_ra A (A.cirsRa s.ra s.dec t) t
      let hour_angle := lst - tee_ra
      let sinX := Real.sin hour_angle
      let cosX := Real.tan loc.lat * Real.cos s.dec
                    - Real.sin s.dec * Real.cos hour_angle
      ⟨(cosX : ℂ), (sinX : ℂ), (-sinX : ℝ), (cosX : ℂ)⟩
  (rotation.transpose.mul s.coherency_radec).mul rotation

/- AnalyticBeam (analyticbeam.py): uniform, gaussian, airy variants. -/
structure AnalyticBeam where
  type : String
  sigma : Option ℝ
  diameter : Option ℝ
  data_normalization : String
  freq_interp_kind : String

def supported_types : List String := ["uniform", "gaussian", "airy"]

/- AnalyticBeam.__init__: only validates the type string; the shape
   parameters are stored unchecked (a missing sigma/diameter is not an
   error here; an achromatic-gaussian deprecation warning is not an error). -/
def AnalyticBeam.init (type : String) (sigma diameter : Option ℝ) :
    Except String AnalyticBeam :=
  if type ∈ supported_types then
    Except.ok { type := type, sigma := sigma, diameter := diameter,
                data_normalization := "peak", freq_interp_kind := "linear" }
  else Except.error "type not recognized"

def AnalyticBeam.peak_normalize (b : AnalyticBeam) : AnalyticBeam := b

/- diameter_to_sigma (analyticbeam.py). -/
def diameter_to_sigma (diam freq : ℝ) : ℝ :=
  Real.arcsin (2.2150894 * (299792458 / freq) / (Real.pi * diam)) * 2 / 2.355

/- AnalyticBeam.interp at a single (az, za, freq) point.  The returned
   function gives interp_data[axes_vec, 0, feed] at that point; all three
   beam types write the same value into all four slots.  Missing shape
   parameters raise here (not at construction). -/
open Classical in
def AnalyticBeam.interp (b : AnalyticBeam) (A : Astro) (az za freq : ℝ) :
    Except String (Fin 2 → Fin 2 → ℝ) :=
  if b.type = "uniform" then Except.ok (fun _ _ => 1)
  else if b.type = "gaussian" then
    match b.diameter, b.sigma with
    | none, none =>
        Except.error "Dish diameter needed for gaussian beam -- units: meters"
    | some diam, _ =>
        Except.ok (fun _ _ =>
          Real.exp (-(za ^ 2) / (2 * diameter_to_sigma diam freq ^ 2)))
    | none, some s =>
        Except.ok (fun _ _ => Real.exp (-(za ^ 2) / (2 * s ^ 2)))
  else if b.type = "airy" then
    match b.diameter with
    | none =>
        Except.error "Dish diameter needed for airy beam -- units: meters"
    | some diam =>
        let xval := diam / 2 * Real.sin za * 2 * Real.pi * freq / 3e8
        Except.ok (fun _ _ => if xval = 0 then 1 else 2 * A.besselJ1 xval / xval)
  else Except.error "no interp for this type"

/- Telescope (uvsim.py): name, location, and the list of beams. -/
structure Telescope where
  telescope_name : String
  telescope_location : EarthLoc
  beam_list : List AnalyticBeam

/- Antenna (uvsim.py): ENU position in meters, beam_id indexes beam_list. -/
structure Antenna where
  name : String
  number : ℕ
  pos_enu : Vec3
  beam_id : ℕ

/- numpy.isclose for one component: |x - y| <= atol + rtol * |y|. -/
def npIsClose (x y atol rtol : ℝ) : Prop := |x - y| ≤ atol + rtol * |y|

/- numpy.allclose over a 3-vector with atol = 1e-3 and numpy's default
   rtol = 1e-5, as used by the __eq__ methods. -/
def npAllClose3 (p q : Vec3) : Prop :=
  npIsClose p.1 q.1 1e-3 1e-5 ∧ npIsClose p.2.1 q.2.1 1e-3 1e-5 ∧
    npIsClose p.2.2 q.2.2 1e-3 1e-5

/- Antenna.__eq__: name, close positions, equal beam ids. -/
def Antenna.pyEq (x y : Antenna) : Prop :=
  x.name = y.name ∧ npAllClose3 x.pos_enu y.pos_enu ∧ x.beam_id = y.beam_id

def Antenna.pyGt (x y : Antenna) : Prop := x.number > y.number

def Antenna.pyGe (x y : Antenna) : Prop := x.number ≥ y.number

def Antenna.pyLt (x y : Antenna) : Prop := ¬ Antenna.pyGe x y

def Antenna.pyLe (x y : Antenna) : Prop := ¬ Antenna.pyGt x y

/- Baseline (uvsim.py): enu = antenna2.pos_enu - antenna1.pos_enu and the
   uvw vector is the same ENU vector. -/
structure Baseline where
  antenna1 : Antenna
  antenna2 : Antenna
  enu : Vec3
  uvw : Vec3

def mkBaseline (a1 a2 : Antenna) : Baseline :=
  let e : Vec3 := (a2.pos_enu.1 - a1.pos_enu.1, a2.pos_enu.2.1 - a1.pos_enu.2.1,
                   a2.pos_enu.2.2 - a1.pos_enu.2.2)
  { antenna1 := a1, antenna2 := a2, enu := e, uvw := e }

/- Baseline.__eq__. -/
def Baseline.pyEq (x y : Baseline) : Prop :=
  Antenna.pyEq x.antenna1 y.antenna1 ∧ Antenna.pyEq x.antenna2 y.antenna2 ∧
    npAllClose3 x.enu y.enu ∧ npAllClose3 x.uvw y.uvw

open Classical in
def Baseline.pyGt (x y : Baseline) : Prop :=
  if Antenna.pyEq x.antenna1 y.antenna1 then Antenna.pyGt x.antenna2 y.antenna2
  else Antenna.pyGt x.antenna1 y.antenna1

open Classical in
def Baseline.pyGe (x y : Baseline) : Prop :=
  if Antenna.pyEq x.antenna1 y.antenna1 then Antenna.pyGe x.antenna2 y.antenna2
  else Antenna.pyGe x.antenna1 y.antenna1

def Baseline.pyLt (x y : Baseline) : Prop := ¬ Baseline.pyGe x y

def Baseline.pyLe (x y : Baseline) : Prop := ¬ Baseline.pyGt x y

/- UVTask (uvsim.py): the atomic work unit.  uvdata_index is the
   (blt-row, spectral-window, frequency-channel) destination triple; the
   ordering methods and serial_gather destructure it, so it is modelled as
   the triple itself (the claims only concern tasks with a defined index). -/
structure UVTask where
  source : Source
  time : ℝ
  freq : ℝ
  baseline : Baseline
  telescope : Telescope
  visibility_vector : Option Vec4
  uvdata_index : ℕ × ℕ × ℕ

open Classical in
def UVTask.pyGt (x y : UVTask) : Prop :=
  if Baseline.pyEq x.baseline y.baseline then
    (if x.uvdata_index.2.2 = y.uvdata_index.2.2 then
       x.uvdata_index.1 > y.uvdata_index.1
     else x.uvdata_index.2.2 > y.uvdata_index.2.2)
  else Baseline.pyGt x.baseline y.baseline

open Classical in
def UVTask.pyGe (x y : UVTask) : Prop :=
  if Baseline.pyEq x.baseline y.baseline then
    (if x.uvdata_index.2.2 = y.uvdata_index.2.2 then
       x.uvdata_index.1 ≥ y.uvdata_index.1
     else x.uvdata_index.2.2 ≥ y.uvdata_index.2.2)
  else Baseline.pyGe x.baseline y.baseline

def UVTask.pyLt (x y : UVTask) : Prop := ¬ UVTask.pyGe x y

def UVTask.pyLe (x y : UVTask) : Prop := ¬ UVTask.pyGt x y

/- Antenna.get_beam_jones (uvsim.py): looks the beam up by beam_id,
   peak-normalizes if needed (a no-op for analytic beams), interpolates at
   the source direction and packs the Jones matrix:
   [0,0] = data[1,0,0], [1,1] = data[0,0,1], [0,1] = data[0,0,0],
   [1,0] = data[1,0,1]. -/
def Antenna.get_beam_jones (ant : Antenna) (A : Astro) (tel : Telescope)
    (az za freq : ℝ) : Except String Mat2 :=
  match tel.beam_list.get? ant.beam_id with
  | none => Except.error "list index out of range"
  | some beam =>
      let beam := if beam.data_normalization = "peak" then beam
                  else beam.peak_normalize
      match beam.interp A az za freq with
      | Except.error e => Except.error e
      | Except.ok d =>
          Except.ok ⟨((d 1 0 : ℝ) : ℂ), ((d 0 0 : ℝ) : ℂ),
                     ((d 1 1 : ℝ) : ℂ), ((d 0 1 : ℝ) : ℂ)⟩

/- UVEngine.apply_beam: J1 * C_local * J2^H, recomputing the source's
   az_za through az_za_calc for each antenna (mutating the cache). -/
def UVEngine.apply_beam (A : Astro) (task : UVTask) :
    Except String (Mat2 × UVTask) :=
  let r1 := task.source.az_za_calc A task.time task.telescope.telescope_location
  match task.baseline.antenna1.get_beam_jones A task.telescope r1.1.1 r1.1.2
      task.freq with
  | Except.error e => Except.error e
  | Except.ok j1 =>
      let r2 := r1.2.az_za_calc A task.time task.telescope.telescope_location
      match task.baseline.antenna2.get_beam_jones A task.telescope r2.1.1 r2.1.2
          task.freq with
      | Except.error e => Except.error e
      | Except.ok j2 =>
          let coh := r2.2.coherency_calc A task.time
            task.telescope.telescope_location
          Except.ok ((j1.mul coh).mul j2.conjTranspose,
                     { task with source := r2.2 })

/- Speed of light in m/s (astropy.constants.c). -/
def c_ms : ℝ := 299792458

/- UVEngine.make_visibility: applies the beam, then the horizon mask
   (returning the zero 4-vector for sources below the horizon), otherwise
   multiplies the apparent coherency by the fringe
   exp(2 pi i * dot(uvw / c * freq, (l,m,n))) and packs [xx, yy, xy, yx]. -/
def UVEngine.make_visibility (A : Astro) (task : UVTask) :
    Except String (Vec4 × UVTask) :=
  match UVEngine.apply_beam A task with
  | Except.error e => Except.error e
  | Except.ok (app, task1) =>
      let r := task1.source.pos_lmn A task1.time
        task1.telescope.telescope_location
      let task2 := { task1 with source := r.2 }
      match r.1 with
      | none => Except.ok (((0 : ℂ), 0, 0, 0), task2)
      | some lmn =>
          let u := task2.baseline.uvw
          let d := u.1 / c_ms * task2.freq * lmn.1
                     + u.2.1 / c_ms * task2.freq * lmn.2.1
                     + u.2.2 / c_ms * task2.freq * lmn.2.2
          let fringe : ℂ := Complex.exp (((2 * Real.pi * d : ℝ) : ℂ) * Complex.I)
          let vij := Mat2.smul fringe app
          Except.ok ((vij.a, vij.d, vij.b, vij.c), task2)

/- numpy.array_split(lst, W): the first (len mod W) shards get
   (len / W) + 1 elements and the remaining shards get (len / W). -/
def splitSizes (L W : ℕ) : List ℕ :=
  List.replicate (L % W) (L / W + 1) ++ List.replicate (W - L % W) (L / W)

def splitBySizes {α : Type} : List ℕ → List α → List (List α)
  | [], _ => []
  | n :: ns, l => l.take n :: splitBySizes ns (l.drop n)

def array_split {α : Type} (l : List α) (W : ℕ) : List (List α) :=
  splitBySizes (splitSizes l.length W) l

/- The slice of UVData consumed by uvdata_to_task_list (uvsim.py):
   frequencies (freq_array[0] is the single spectral window), times per
   baseline-time row, antenna metadata and ENU positions, and the Nblts /
   Nfreqs counts used to build the meshgrid of tasks. -/
structure UVDataIn where
  freq_array : List (List ℝ)
  time_array : List ℝ
  telescope_name : String
  telescope_location : Vec3
  antenna_names : List String
  antenna_numbers : List ℕ
  ant_1_array : List ℕ
  ant_2_array : List ℕ
  antpos_ENU : List Vec3
  Nblts : ℕ
  Nfreqs : ℕ

/- Python for-loops that can raise stop at the first error: a monadic map
   over Except written as plain recursion so proofs can use induction. -/
def exceptMapM {α β : Type} (f : α → Except String β) :
    List α → Except String (List β)
  | [] => Except.ok []
  | x :: xs =>
      match f x with
      | Except.error e => Except.error e
      | Except.ok y =>
          match exceptMapM f xs with
          | Except.error e => Except.error e
          | Except.ok ys => Except.ok (y :: ys)

/- The antenna-construction loop of uvdata_to_task_list: antenna `num` gets
   name antenna_names[num], position antpos_ENU[num], and beam id
   beam_dict[name] when a beam_dict is supplied, else 0. -/
def buildAntennas (uv : UVDataIn) (beam_dict : Option (String → ℕ)) :
    Except String (List Antenna) :=
  exceptMapM (fun p =>
      match uv.antpos_ENU.get? p.1 with
      | none => Except.error "list index out of range"
      | some pos =>
          Except.ok { name := p.2, number := p.1, pos_enu := pos,
                      beam_id := match beam_dict with
                                 | none => 0
                                 | some d => d p.2 })
    uv.antenna_names.enum

/- The baseline-construction loop: for each row of ant_1_array/ant_2_array,
   find the first index of that antenna number in antenna_numbers and pair
   the corresponding Antenna objects. -/
def buildBaselines (uv : UVDataIn) (antennas : List Antenna) :
    Except String (List Baseline) :=
  exceptMapM (fun p =>
      match uv.ant_2_array.get? p.1 with
      | none => Except.error "list index out of range"
      | some antnum2 =>
          match uv.antenna_numbers.findIdx? (fun n => n = p.2),
              uv.antenna_numbers.findIdx? (fun n => n = antnum2) with
          | some i1, some i2 =>
              match antennas.get? i1, antennas.get? i2 with
              | some a1, some a2 => Except.ok (mkBaseline a1 a2)
              | _, _ => Except.error "list index out of range"
          | _, _ => Except.error "index 0 is out of bounds")
    uv.ant_1_array.enum

/- The raveled meshgrid of (blts, freq, source) indices.  numpy's default
   'xy' meshgrid ravels with the frequency axis outermost, then the
   baseline-time axis, then the source axis. -/
def meshIndices (Nblts Nfreqs Nsrcs : ℕ) : List (ℕ × ℕ × ℕ) :=
  (List.range Nfreqs).flatMap (fun fi =>
    (List.range Nblts).flatMap (fun blti =>
      (List.range Nsrcs).map (fun si => (blti, fi, si))))

/- uvdata_to_task_list (uvsim.py): builds one UVTask per
   (baseline-time, frequency, source) triple with uvdata_index
   (blti, 0, fi).  Raises when beam_list has more than one element and no
   beam_dict is given. -/
def uvdata_to_task_list (A : Astro) (uv : UVDataIn) (sources : List Source)
    (beam_list : List AnalyticBeam) (beam_dict : Option (String → ℕ)) :
    Except String (List UVTask) :=
  match uv.freq_array.get? 0 with
  | none => Except.error "index 0 is out of bounds"
  | some freq =>
      let telescope : Telescope :=
        ⟨uv.telescope_name, A.fromGeocentric uv.telescope_location, beam_list⟩
      if 1 < beam_list.length ∧ beam_dict.isNone = true then
        Except.error
          "beam_dict must be supplied if beam_list has more than one element."
      else
        match buildAntennas uv beam_dict with
        | Except.error e => Except.error e
        | Except.ok antennas =>
            match buildBaselines uv antennas with
            | Except.error e => Except.error e
            | Except.ok baselines =>
                exceptMapM (fun idx =>
                    match baselines.get? idx.1, freq.get? idx.2.1,
                        uv.time_array.get? idx.1, sources.get? idx.2.2 with
                    | some bl, some f, some t, some src =>
                        Except.ok { source := src, time := t, freq := f,
                                    baseline := bl, telescope := telescope,
                                    visibility_vector := none,
                                    uvdata_index := (idx.1, 0, idx.2.1) }
                    | _, _, _, _ => Except.error "list index out of range")
                  (meshIndices uv.Nblts uv.Nfreqs sources.length)

/- Index-lookup well-formedness of the UVData input: every list access
   performed by uvdata_to_task_list is in range (`row` is freq_array[0]). -/
def UVDataIn.wellformed (uv : UVDataIn) (row : List ℝ) : Prop :=
  uv.antenna_names.length ≤ uv.antpos_ENU.length ∧
    uv.ant_1_array.length ≤ uv.ant_2_array.length ∧
    (∀ n ∈ uv.ant_1_array, n ∈ uv.antenna_numbers) ∧
    (∀ n ∈ uv.ant_2_array, n ∈ uv.antenna_numbers) ∧
    uv.antenna_numbers.length ≤ uv.antenna_names.length ∧
    uv.Nblts ≤ uv.ant_1_array.length ∧
    uv.Nblts ≤ uv.time_array.length ∧
    uv.Nfreqs ≤ row.length

/- The output container as serial_gather sees it: the complex data_array
   addressed by (blt, spectral window, frequency) holding a polarization
   4-vector per cell, and `extra` standing for every other field of the
   UVData object (flags, nsample, metadata, ...). -/
structure UVDataOut (α : Type) where
  data_array : ℕ × ℕ × ℕ → Vec4
  extra : α

/- serial_gather (uvsim.py): data_array[task.uvdata_index] +=
   task.visibility_vector for each task in order; a task whose visibility
   is still None makes numpy raise. -/
def serial_gather {α : Type} :
    List UVTask → UVDataOut α → Except String (UVDataOut α)
  | [], uv => Except.ok uv
  | tk :: ts, uv =>
      match tk.visibility_vector with
      | none => Except.error "unsupported operand type for +="
      | some v =>
          serial_gather ts
            { uv with data_array := fun j =>
                if j = tk.uvdata_index then uv.data_array j + v
                else uv.data_array j }

/- Spec-side definition (section 3 of the spec): the equatorial coherency
   C = 0.5 * [[I+Q, U-iV], [U+iV, I-Q]], written from the spec's words to
   compare against the constructor's stored matrix. -/
def specCoherencyMatrix (I Q U V : ℝ) : Mat2 :=
  ⟨((0.5 : ℝ) : ℂ) * ((I : ℂ) + (Q : ℂ)),
   ((0.5 : ℝ) : ℂ) * ((U : ℂ) - Complex.I * (V : ℂ)),
   ((0.5 : ℝ) : ℂ) * ((U : ℂ) + Complex.I * (V : ℂ)),
   ((0.5 : ℝ) : ℂ) * ((I : ℂ) - (Q : ℂ))⟩

/- Spec-side definition of the baseline key order claimed in section 3:
   lexicographic by antenna1.number then antenna2.number. -/
def baselineNumKeyLt (x y : Baseline) : Prop :=
  x.antenna1.number < y.antenna1.number ∨
    (x.antenna1.number = y.antenna1.number ∧
      x.antenna2.number < y.antenna2.number)

/- Spec-side definition of the claimed task order: primary key the
   frequency-channel index, secondary the blt index, tertiary the baseline. -/
def claimedTaskLt (x y : UVTask) : Prop :=
  x.uvdata_index.2.2 < y.uvdata_index.2.2 ∨
    (x.uvdata_index.2.2 = y.uvdata_index.2.2 ∧
      (x.uvdata_index.1 < y.uvdata_index.1 ∨
        (x.uvdata_index.1 = y.uvdata_index.1 ∧
          baselineNumKeyLt x.baseline y.baseline)))

/- Concrete objects used by witnesses and counterexamples. -/

def trivLoc : EarthLoc := ⟨0, 0, 0⟩

/- A constant astropy model placing every source at the zenith (az = 0,
   zenith angle = 0) at every time. -/
def trivAstro : Astro :=
  ⟨fun _ _ _ _ => (0, 0), fun _ _ => 0, fun _ _ _ => 0, fun _ => 0,
   fun _ => 0, fun _ => 0, fun _ => trivLoc⟩

/- An astropy model placing every source below the horizon (za = 2). -/
def astroBelow : Astro :=
  ⟨fun _ _ _ _ => (0, 2), fun _ _ => 0, fun _ _ _ => 0, fun _ => 0,
   fun _ => 0, fun _ => 0, fun _ => trivLoc⟩

/- An astropy model whose azimuth drifts with time (az = t, za = 1), so the
   position at two different times differs. -/
def astroDrift : Astro :=
  ⟨fun _ _ t _ => (t, 1), fun _ _ => 0, fun _ _ _ => 0, fun _ => 0,
   fun _ => 0, fun _ => 0, fun _ => trivLoc⟩

def uniformBeam : AnalyticBeam := ⟨"uniform", none, none, "peak", "linear"⟩

def tel0 : Telescope := ⟨"tel", trivLoc, [uniformBeam]⟩

def srcUnpol : Source := mkSource "src0" 0 0 150000000 (1, 0, 0, 0)

def srcCached : Source := { srcUnpol with az_za := some (0, 1) }

def antW1 : Antenna := ⟨"a0", 0, (0, 0, 0), 0⟩

def antW2 : Antenna := ⟨"a1", 1, (5, 0, 0), 0⟩

def antW3 : Antenna := ⟨"a2", 2, (10, 0, 0), 0⟩

def antW4 : Antenna := ⟨"a3", 3, (15, 0, 0), 0⟩

/- A task for one 5 m east-west baseline at 150 MHz on the uniform beam. -/
def task0 : UVTask :=
  { source := srcUnpol, time := 0, freq := 150000000,
    baseline := mkBaseline antW1 antW2, telescope := tel0,
    visibility_vector := none, uvdata_index := (0, 0, 0) }

def taskP : UVTask := { task0 with uvdata_index := (0, 0, 1) }

def taskQ : UVTask :=
  { task0 with baseline := mkBaseline antW3 antW4, uvdata_index := (0, 0, 0) }

def taskVis : UVTask := { task0 with visibility_vector := some (1, 0, 0, 0) }

def uvOut0 : UVDataOut ℕ := ⟨fun _ => (0, 0, 0, 0), 7⟩

def uv0 : UVDataIn :=
  { freq_array := [[150000000]], time_array := [0], telescope_name := "t",
    telescope_location := (0, 0, 0), antenna_names := ["a", "b"],
    antenna_numbers := [0, 1], ant_1_array := [0], ant_2_array := [1],
    antpos_ENU := [(0, 0, 0), (5, 0, 0)], Nblts := 1, Nfreqs := 1 }

/- The source state after apply_beam: az_za refreshed for the task's time
   and telescope location. -/
def refreshSource (A : Astro) (task : UVTask) : Source :=
  { task.source with
    az_za := some (A.altAz task.source.ra task.source.dec task.time
      task.telescope.telescope_location) }

/- Helper lemmas (shared). -/

theorem sum_splitSizes (L W : ℕ) (hW : 1 ≤ W) : (splitSizes L W).sum = L := by
  have ha : L % W ≤ W := le_of_lt (Nat.mod_lt _ hW)
  have h1 : (W - L % W) * (L / W) = W * (L / W) - (L % W) * (L / W) :=
    Nat.sub_mul _ _ _
  have h2 : (L % W) * (L / W) ≤ W * (L / W) := Nat.mul_le_mul_right _ ha
  have h3 : (L % W) * (L / W + 1) = (L % W) * (L / W) + L % W := by ring
  have h4 : L % W + W * (L / W) = L := Nat.mod_add_div L W
  simp only [splitSizes, List.sum_append, List.sum_replicate, smul_eq_mul]
  omega

theorem length_splitSizes (L W : ℕ) (hW : 1 ≤ W) :
    (splitSizes L W).length = W := by
  have : L % W ≤ W := le_of_lt (Nat.mod_lt _ hW)
  simp [splitSizes]
  omega

theorem join_splitBySizes {α : Type} (ns : List ℕ) (l : List α) :
    (splitBySizes ns l).flatten = l.take ns.sum := by
  induction ns generalizing l with
  | nil => simp [splitBySizes]
  | cons n ns ih =>
      simp only [splitBySizes, List.flatten_cons, ih, List.sum_cons]
      exact (List.take_add l n ns.sum).symm

theorem length_splitBySizes {α : Type} (ns : List ℕ) (l : List α) :
    (splitBySizes ns l).length = ns.length := by
  induction ns generalizing l with
  | nil => simp [splitBySizes]
  | cons n ns ih => simp [splitBySizes, ih]

/-- C3: numpy.array_split assigns every task to exactly one shard: for every
task list and worker count W >= 1 it produces exactly W shards whose
concatenation is the full task list, and (for lists of distinct tasks) the
shards are pairwise disjoint. -/
theorem array_split_partitions {α : Type} (l : List α) (W : ℕ) (hW : 1 ≤ W) :
    (array_split l W).length = W ∧ (array_split l W).flatten = l ∧
      (l.Nodup → (array_split l W).Pairwise List.Disjoint) := by
  have hjoin : (array_split l W).flatten = l := by
    rw [array_split, join_splitBySizes, sum_splitSizes _ _ hW]
    simp
  refine ⟨?_, hjoin, fun hnd => ?_⟩
  · rw [array_split, length_splitBySizes, length_splitSizes _ _ hW]
  · have : (array_split l W).flatten.Nodup := by rw [hjoin]; exact hnd
    exact (List.nodup_flatten.mp this).2

/-- C3 witness: splitting the 5-element list [0,1,2,3,4] over 2 workers. -/
theorem array_split_partitions_witness :
    1 ≤ 2 ∧
      ((array_split [0, 1, 2, 3, 4] 2).length = 2 ∧
        (array_split [0, 1, 2, 3, 4] 2).flatten = [0, 1, 2, 3, 4] ∧
        (([0, 1, 2, 3, 4] : List ℕ).Nodup →
          (array_split [0, 1, 2, 3, 4] 2).Pairwise List.Disjoint)) :=
  ⟨by decide, array_split_partitions [0, 1, 2, 3, 4] 2 (by decide)⟩

/-- C4 counterexample: constructing a gaussian (or airy) AnalyticBeam with
neither sigma nor diameter succeeds — AnalyticBeam.__init__ raises no
missing-parameter error, contradicting the claim that construction fails. -/
theorem analytic_beam_init_missing_param_ok :
    AnalyticBeam.init "gaussian" none none =
        Except.ok ⟨"gaussian", none, none, "peak", "linear"⟩ ∧
      AnalyticBeam.init "airy" none none =
        Except.ok ⟨"airy", none, none, "peak", "linear"⟩ := by
  constructor <;> rfl

/-- C4 amended: constructing a gaussian or airy beam without its shape
parameter succeeds; the missing-parameter error is raised later, at beam
evaluation time (AnalyticBeam.interp), not at construction time. -/
theorem analytic_beam_missing_param_error_at_interp (A : Astro)
    (az za freq : ℝ) :
    (∃ b, AnalyticBeam.init "gaussian" none none = Except.ok b ∧
        b.interp A az za freq = Except.error
          "Dish diameter needed for gaussian beam -- units: meters") ∧
      (∃ b, AnalyticBeam.init "airy" none none = Except.ok b ∧
        b.interp A az za freq = Except.error
          "Dish diameter needed for airy beam -- units: meters") := by
  refine ⟨⟨⟨"gaussian", none, none, "peak", "linear"⟩, rfl, ?_⟩,
          ⟨⟨"airy", none, none, "peak", "linear"⟩, rfl, ?_⟩⟩ <;>
    simp [AnalyticBeam.interp]

/-- C7: the equatorial coherency stored by Source.__init__ equals the
spec's 0.5 * [[I+Q, U-iV], [U+iV, I-Q]] and is Hermitian for real Stokes
inputs. -/
theorem coherency_radec_matches_spec_and_hermitian (name : String)
    (ra dec freq I Q U V : ℝ) :
    (mkSource name ra dec freq (I, Q, U, V)).coherency_radec =
        specCoherencyMatrix I Q U V ∧
      (mkSource name ra dec freq (I, Q, U, V)).coherency_radec.conjTranspose =
        (mkSource name ra dec freq (I, Q, U, V)).coherency_radec := by
  constructor
  · simp [mkSource, specCoherencyMatrix]
    norm_num
  · simp only [mkSource, Mat2.conjTranspose, map_mul, map_add, map_sub,
      Complex.conj_ofReal, map_ofNat]
    norm_num [Complex.ext_iff]

/-- C8: for an unpolarized source (|Q| + |U| + |V| = 0) the coherency
rotation is the identity matrix, so coherency_calc returns the stored
equatorial coherency unchanged for every time and location. -/
theorem coherency_calc_unpolarized (A : Astro) (s : Source) (t : ℝ)
    (loc : EarthLoc)
    (h : |s.stokes.2.1| + |s.stokes.2.2.1| + |s.stokes.2.2.2| = 0) :
    s.coherency_calc A t loc = s.coherency_radec := by
  unfold Source.coherency_calc
  rw [if_pos h]
  cases s.coherency_radec with
  | mk a b c d => simp [Mat2.mul, Mat2.one, Mat2.transpose]

/-- C8 witness: a Stokes (1,0,0,0) source at a concrete time and location. -/
theorem coherency_calc_unpolarized_witness :
    (|srcUnpol.stokes.2.1| + |srcUnpol.stokes.2.2.1| +
        |srcUnpol.stokes.2.2.2| = 0) ∧
      srcUnpol.coherency_calc trivAstro 0 trivLoc = srcUnpol.coherency_radec :=
  ⟨by norm_num [srcUnpol, mkSource],
   coherency_calc_unpolarized trivAstro srcUnpol 0 trivLoc
     (by norm_num [srcUnpol, mkSource])⟩

theorem apply_beam_ok_shape (A : Astro) (task : UVTask) (r : Mat2 × UVTask)
    (hr : UVEngine.apply_beam A task = Except.ok r) :
    r.2 = { task with source := refreshSource A task } := by
  unfold refreshSource
  unfold UVEngine.apply_beam at hr
  simp only [Source.az_za_calc] at hr
  split at hr
  · simp at hr
  · split at hr
    · simp at hr
    · simp only [Except.ok.injEq] at hr
      rw [← hr]

/-- C1: a task whose source has computed zenith angle strictly greater than
pi/2 (below the horizon) yields the zero visibility 4-vector from
make_visibility, with no error, for every baseline, time and frequency
(given that the beam evaluation in apply_beam succeeds, which is
independent of the source position). -/
theorem make_visibility_below_horizon (A : Astro) (task : UVTask)
    (hza : (A.altAz task.source.ra task.source.dec task.time
        task.telescope.telescope_location).2 > Real.pi / 2)
    (hok : ∃ r, UVEngine.apply_beam A task = Except.ok r) :
    ∃ task2, UVEngine.make_visibility A task =
      Except.ok (((0 : ℂ), 0, 0, 0), task2) := by
  obtain ⟨r, hr⟩ := hok
  have hshape := apply_beam_ok_shape A task r hr
  obtain ⟨app, task1⟩ := r
  unfold UVEngine.make_visibility
  rw [hr]
  simp only at hshape
  subst hshape
  simp [Source.pos_lmn, refreshSource, hza]

/-- C1 witness: a concrete task (uniform beam, 5 m baseline) under an astro
model that puts the source at zenith angle 2 > pi/2. -/
theorem make_visibility_below_horizon_witness :
    ((astroBelow.altAz task0.source.ra task0.source.dec task0.time
        task0.telescope.telescope_location).2 > Real.pi / 2) ∧
      (∃ r, UVEngine.apply_beam astroBelow task0 = Except.ok r) ∧
      (∃ task2, UVEngine.make_visibility astroBelow task0 =
        Except.ok (((0 : ℂ), 0, 0, 0), task2)) := by
  have h1 : (astroBelow.altAz task0.source.ra task0.source.dec task0.time
      task0.telescope.telescope_location).2 > Real.pi / 2 := by
    show (2 : ℝ) > Real.pi / 2
    nlinarith [Real.pi_lt_d2]
  have h2 : ∃ r, UVEngine.apply_beam astroBelow task0 = Except.ok r :=
    ⟨_, rfl⟩
  exact ⟨h1, h2, make_visibility_below_horizon astroBelow task0 h1 h2⟩

/-- C5 counterexample: two tasks on different baselines where the
frequency-channel keys order them opposite to the baseline keys.  The
code's comparison puts the task with the smaller baseline first even
though its frequency index is larger, so the claimed
frequency-primary ordering is violated. -/
theorem uvtask_lt_swapped_keys_ctex :
    UVTask.pyLt taskP taskQ ∧ ¬ claimedTaskLt taskP taskQ := by
  have hne1 : ¬ Antenna.pyEq taskP.baseline.antenna1 taskQ.baseline.antenna1 := by
    intro h
    exact absurd h.1 (by decide)
  have hne : ¬ Baseline.pyEq taskP.baseline taskQ.baseline := by
    intro h
    exact hne1 h.1
  constructor
  · intro hge
    unfold UVTask.pyGe at hge
    rw [if_neg hne] at hge
    unfold Baseline.pyGe at hge
    rw [if_neg hne1] at hge
    unfold Antenna.pyGe at hge
    exact absurd hge (by decide)
  · intro hc
    rcases hc with h | ⟨heq, _⟩
    · exact absurd h (by decide)
    · exact absurd heq (by decide)

section
open Classical

/-- C5 amended: UVTask comparison is keyed primarily by the baseline (the
reverse of the claimed priority): t1 < t2 holds exactly when either the
baselines differ under the code's equality and the baseline order (by
antenna1.number, then antenna2.number when the first antennas are equal)
puts t1's baseline first, or the baselines are equal and the
(frequency-channel, blt-row) pair of t1 lexicographically precedes
that of t2. -/
theorem uvtask_lt_iff_baseline_primary (x y : UVTask) :
    (UVTask.pyLt x y ↔
      (if Baseline.pyEq x.baseline y.baseline then
        (if x.uvdata_index.2.2 = y.uvdata_index.2.2 then
          x.uvdata_index.1 < y.uvdata_index.1
        else x.uvdata_index.2.2 < y.uvdata_index.2.2)
      else Baseline.pyLt x.baseline y.baseline)) ∧
    (Baseline.pyLt x.baseline y.baseline ↔
      (if Antenna.pyEq x.baseline.antenna1 y.baseline.antenna1 then
        x.baseline.antenna2.number < y.baseline.antenna2.number
      else x.baseline.antenna1.number < y.baseline.antenna1.number)) := by
  constructor
  · unfold UVTask.pyLt UVTask.pyGe
    by_cases hb : Baseline.pyEq x.baseline y.baseline
    · rw [if_pos hb, if_pos hb]
      by_cases hf : x.uvdata_index.2.2 = y.uvdata_index.2.2
      · rw [if_pos hf, if_pos hf]
        omega
      · rw [if_neg hf, if_neg hf]
        omega
    · rw [if_neg hb, if_neg hb]
      exact Iff.rfl
  · unfold Baseline.pyLt Baseline.pyGe
    by_cases ha : Antenna.pyEq x.baseline.antenna1 y.baseline.antenna1
    · rw [if_pos ha, if_pos ha]
      unfold Antenna.pyGe
      omega
    · rw [if_neg ha, if_neg ha]
      unfold Antenna.pyGe
      omega

end

/-- C6 counterexample: pos_lmn never invalidates the az_za cache.  After a
first call at time 0, a second call at time 1 (under an astro model whose
azimuth equals the time) returns the value cached at time 0, not the
freshly computed value for time 1. -/
theorem pos_lmn_stale_cache_ctex :
    ((srcUnpol.pos_lmn astroDrift 0 trivLoc).2.pos_lmn astroDrift 1
          trivLoc).1 =
        (srcUnpol.pos_lmn astroDrift 0 trivLoc).1 ∧
      ((srcUnpol.pos_lmn astroDrift 0 trivLoc).2.pos_lmn astroDrift 1
          trivLoc).1 ≠
        (srcUnpol.pos_lmn astroDrift 1 trivLoc).1 := by
  have hpi : ¬ ((1 : ℝ) > Real.pi / 2) := by nlinarith [Real.pi_gt_three]
  have hsin : Real.sin 1 ≠ 0 :=
    ne_of_gt (Real.sin_pos_of_pos_of_lt_pi one_pos
      (by nlinarith [Real.pi_gt_three]))
  constructor
  · simp [srcUnpol, mkSource, Source.pos_lmn, Source.az_za_calc, astroDrift,
      hpi]
  · simp only [srcUnpol, mkSource, Source.pos_lmn, Source.az_za_calc,
      astroDrift, hpi, if_false]
    intro h
    simp only [Option.some.injEq, Prod.mk.injEq] at h
    have h1 : Real.sin 0 * Real.sin 1 = Real.sin 1 * Real.sin 1 := h.1
    rw [Real.sin_zero, zero_mul] at h1
    exact hsin (mul_self_eq_zero.mp h1.symm)

/-- C6 amended: the az_za cache is written on first use and never
invalidated by pos_lmn: once cached, pos_lmn returns the same result for
every (time, location), while az_za_calc itself always recomputes the
position and refreshes the cache whenever it is invoked. -/
theorem pos_lmn_cache_never_invalidated (A : Astro) (s : Source)
    (p : ℝ × ℝ) (hp : s.az_za = some p) (t t' : ℝ) (loc loc' : EarthLoc) :
    s.pos_lmn A t loc = s.pos_lmn A t' loc' ∧
      (s.az_za_calc A t loc).1 = A.altAz s.ra s.dec t loc ∧
      ((s.az_za_calc A t loc).2).az_za =
        some (A.altAz s.ra s.dec t loc) := by
  refine ⟨?_, rfl, rfl⟩
  unfold Source.pos_lmn
  rw [hp]

/-- C6 amended witness: a source with a concrete cached position, queried
at two different times. -/
theorem pos_lmn_cache_never_invalidated_witness :
    srcCached.az_za = some (0, 1) ∧
      (srcCached.pos_lmn trivAstro 0 trivLoc =
          srcCached.pos_lmn trivAstro 1 trivLoc ∧
        (srcCached.az_za_calc trivAstro 0 trivLoc).1 =
          trivAstro.altAz srcCached.ra srcCached.dec 0 trivLoc ∧
        ((srcCached.az_za_calc trivAstro 0 trivLoc).2).az_za =
          some (trivAstro.altAz srcCached.ra srcCached.dec 0 trivLoc)) :=
  ⟨rfl, pos_lmn_cache_never_invalidated trivAstro srcCached (0, 1) rfl 0 1
    trivLoc trivLoc⟩

theorem serial_gather_shape {α : Type} (tasks : List UVTask)
    (uv : UVDataOut α)
    (h : ∀ tk ∈ tasks, tk.visibility_vector.isSome = true) :
    ∃ uv2, serial_gather tasks uv = Except.ok uv2 ∧ uv2.extra = uv.extra ∧
      ∀ idx, uv2.data_array idx = uv.data_array idx +
        (tasks.map (fun tk =>
          if idx = tk.uvdata_index then tk.visibility_vector.getD (0, 0, 0, 0)
          else 0)).sum := by
  induction tasks generalizing uv with
  | nil =>
      refine ⟨uv, rfl, rfl, ?_⟩
      intro idx
      simp
  | cons tk ts ih =>
      obtain ⟨v, hv⟩ := Option.isSome_iff_exists.mp (h tk (by simp))
      obtain ⟨uv2, hgath, hextra, hdata⟩ :=
        ih { uv with data_array := fun j =>
              if j = tk.uvdata_index then uv.data_array j + v
              else uv.data_array j }
          (fun x hx => h x (by simp [hx]))
      refine ⟨uv2, ?_, hextra, ?_⟩
      · simp only [serial_gather, hv]
        exact hgath
      · intro idx
        rw [hdata idx]
        simp only [List.map_cons, List.sum_cons, hv, Option.getD_some]
        by_cases hidx : idx = tk.uvdata_index
        · rw [if_pos hidx, if_pos hidx, add_assoc]
        · rw [if_neg hidx, if_neg hidx, zero_add]

/-- C10: serial_gather adds each task's visibility_vector exactly to the
data_array cell addressed by that task's uvdata_index (accumulating with
+=), leaves every cell that is no task's uvdata_index unchanged, and
leaves all other fields of the container unchanged. -/
theorem serial_gather_accumulates {α : Type} (tasks : List UVTask)
    (uv : UVDataOut α)
    (h : ∀ tk ∈ tasks, tk.visibility_vector.isSome = true) :
    ∃ uv2, serial_gather tasks uv = Except.ok uv2 ∧ uv2.extra = uv.extra ∧
      (∀ idx, uv2.data_array idx = uv.data_array idx +
        (tasks.map (fun tk =>
          if idx = tk.uvdata_index then tk.visibility_vector.getD (0, 0, 0, 0)
          else 0)).sum) ∧
      (∀ idx, (∀ tk ∈ tasks, tk.uvdata_index ≠ idx) →
        uv2.data_array idx = uv.data_array idx) := by
  obtain ⟨uv2, hgath, hextra, hdata⟩ := serial_gather_shape tasks uv h
  refine ⟨uv2, hgath, hextra, hdata, ?_⟩
  intro idx hnone
  rw [hdata idx]
  have hz : (tasks.map (fun tk =>
      if idx = tk.uvdata_index then tk.visibility_vector.getD (0, 0, 0, 0)
      else 0)).sum = (0 : Vec4) := by
    apply List.sum_eq_zero
    intro x hx
    obtain ⟨tk, htk, rfl⟩ := List.mem_map.mp hx
    exact if_neg (fun hh => hnone tk htk hh.symm)
  rw [hz, add_zero]

/-- C10 witness: one task with visibility (1,0,0,0) gathered into a
zero-initialized container with extra field 7. -/
theorem serial_gather_accumulates_witness :
    (∀ tk ∈ [taskVis], tk.visibility_vector.isSome = true) ∧
      (∃ uv2, serial_gather [taskVis] uvOut0 = Except.ok uv2 ∧
        uv2.extra = uvOut0.extra ∧
        (∀ idx, uv2.data_array idx = uvOut0.data_array idx +
          (([taskVis]).map (fun tk =>
            if idx = tk.uvdata_index then
              tk.visibility_vector.getD (0, 0, 0, 0)
            else 0)).sum) ∧
        (∀ idx, (∀ tk ∈ [taskVis], tk.uvdata_index ≠ idx) →
          uv2.data_array idx = uvOut0.data_array idx)) :=
  ⟨by simp [taskVis], serial_gather_accumulates [taskVis] uvOut0
    (by simp [taskVis])⟩

/-- C2 evaluation: at the claimed scenario (single zenith source with
Stokes (1,0,0,0), uniform beams, 5 m east-west baseline, zenith-transit
astro model) make_visibility returns (1,1,1,1), not the (0.5,0.5,0,0)
expected by the spec and by the repository's own tests: get_beam_jones
fills all four Jones entries with 1 for the uniform beam, so the
beam-sandwiched coherency doubles and the cross-polarizations stay 1. -/
theorem make_visibility_zenith_uniform_ones :
    UVEngine.make_visibility trivAstro task0 =
      Except.ok (((1 : ℂ), 1, 1, 1),
        { task0 with source := refreshSource trivAstro task0 }) := by
  have hpi : ¬ ((0 : ℝ) > Real.pi / 2) := by
    simp [not_lt]
    positivity
  unfold UVEngine.make_visibility UVEngine.apply_beam
  simp [Source.az_za_calc, Antenna.get_beam_jones, AnalyticBeam.interp,
    trivAstro, task0, tel0, uniformBeam, srcUnpol, mkSource, mkBaseline,
    antW1, antW2, trivLoc, Source.coherency_calc, Mat2.mul, Mat2.one,
    Mat2.transpose, Mat2.conjTranspose, Mat2.smul, Source.pos_lmn, c_ms,
    refreshSource, hpi]
  norm_num

theorem exceptMapM_ok {α β : Type} (f : α → Except String β) (xs : List α)
    (h : ∀ x ∈ xs, ∃ y, f x = Except.ok y) :
    ∃ ys, exceptMapM f xs = Except.ok ys ∧ ys.length = xs.length ∧
      ∀ y ∈ ys, ∃ x ∈ xs, f x = Except.ok y := by
  induction xs with
  | nil => exact ⟨[], rfl, rfl, by simp⟩
  | cons x xs ih =>
      obtain ⟨y, hy⟩ := h x (by simp)
      obtain ⟨ys, hys, hlen, hmem⟩ := ih (fun a ha => h a (by simp [ha]))
      refine ⟨y :: ys, ?_, by simp [hlen], ?_⟩
      · simp only [exceptMapM, hy, hys]
      · intro z hz
        rcases List.mem_cons.mp hz with rfl | hz2
        · exact ⟨x, by simp, hy⟩
        · obtain ⟨a, ha, hfa⟩ := hmem z hz2
          exact ⟨a, by simp [ha], hfa⟩

theorem findIdx_of_mem (l : List ℕ) (k : ℕ) (hk : k ∈ l) :
    ∃ i, l.findIdx? (fun n => n = k) = some i ∧ i < l.length := by
  cases hfi : l.findIdx? (fun n => n = k) with
  | some i => exact ⟨i, rfl, (List.findIdx?_eq_some_iff_findIdx_eq.mp hfi).1⟩
  | none =>
      rw [List.findIdx?_eq_none_iff] at hfi
      have := hfi k hk
      simp at this

theorem mem_meshIndices (B F S : ℕ) (x : ℕ × ℕ × ℕ)
    (hx : x ∈ meshIndices B F S) : x.1 < B ∧ x.2.1 < F ∧ x.2.2 < S := by
  simp only [meshIndices, List.mem_flatMap, List.mem_map,
    List.mem_range] at hx
  obtain ⟨fi, hfi, blti, hblti, si, hsi, rfl⟩ := hx
  exact ⟨hblti, hfi, hsi⟩

theorem buildAntennas_ok (uv : UVDataIn)
    (h1 : uv.antenna_names.length ≤ uv.antpos_ENU.length) :
    ∃ ants, buildAntennas uv none = Except.ok ants ∧
      ants.length = uv.antenna_names.length ∧ ∀ a ∈ ants, a.beam_id = 0 := by
  have heq : buildAntennas uv none = exceptMapM (fun p =>
      match uv.antpos_ENU.get? p.1 with
      | none => Except.error "list index out of range"
      | some pos => Except.ok (⟨p.2, p.1, pos, 0⟩ : Antenna))
      uv.antenna_names.enum := rfl
  have hall : ∀ p ∈ uv.antenna_names.enum, ∃ y, (fun (p : ℕ × String) =>
      match uv.antpos_ENU.get? p.1 with
      | none => Except.error "list index out of range"
      | some pos => Except.ok (⟨p.2, p.1, pos, 0⟩ : Antenna)) p =
        Except.ok y := by
    intro p hp
    have hget := List.mem_enum_iff_get?.mp hp
    have hlt : p.1 < uv.antenna_names.length := (List.get?_eq_some.mp hget).1
    have hlt2 : p.1 < uv.antpos_ENU.length := lt_of_lt_of_le hlt h1
    exact ⟨⟨p.2, p.1, uv.antpos_ENU.get ⟨p.1, hlt2⟩, 0⟩,
      by simp only [List.get?_eq_get hlt2]⟩
  obtain ⟨ants, hants, hlen, hmem⟩ := exceptMapM_ok _ _ hall
  refine ⟨ants, by rw [heq]; exact hants, by simpa using hlen, ?_⟩
  intro a ha
  obtain ⟨p, _, hfa⟩ := hmem a ha
  cases hget : uv.antpos_ENU.get? p.1 with
  | none =>
      simp only [hget] at hfa
      exact absurd hfa (by simp)
  | some pos =>
      simp only [hget, Except.ok.injEq] at hfa
      rw [← hfa]

theorem buildBaselines_ok (uv : UVDataIn) (ants : List Antenna)
    (hlen : uv.antenna_numbers.length ≤ ants.length)
    (h2 : uv.ant_1_array.length ≤ uv.ant_2_array.length)
    (h3 : ∀ n ∈ uv.ant_1_array, n ∈ uv.antenna_numbers)
    (h4 : ∀ n ∈ uv.ant_2_array, n ∈ uv.antenna_numbers) :
    ∃ bls, buildBaselines uv ants = Except.ok bls ∧
      bls.length = uv.ant_1_array.length ∧
      ∀ bl ∈ bls, bl.antenna1 ∈ ants ∧ bl.antenna2 ∈ ants := by
  have hall : ∀ p ∈ uv.ant_1_array.enum, ∃ y, (fun (p : ℕ × ℕ) =>
      match uv.ant_2_array.get? p.1 with
      | none => Except.error "list index out of range"
      | some antnum2 =>
          match uv.antenna_numbers.findIdx? (fun n => n = p.2),
              uv.antenna_numbers.findIdx? (fun n => n = antnum2) with
          | some i1, some i2 =>
              match ants.get? i1, ants.get? i2 with
              | some a1, some a2 => Except.ok (mkBaseline a1 a2)
              | _, _ => Except.error "list index out of range"
          | _, _ => Except.error "index 0 is out of bounds") p =
        Except.ok y := by
    intro p hp
    have hget := List.mem_enum_iff_get?.mp hp
    have hlt : p.1 < uv.ant_1_array.length := (List.get?_eq_some.mp hget).1
    have hmem1 : p.2 ∈ uv.ant_1_array := List.get?_mem hget
    have hlt2 : p.1 < uv.ant_2_array.length := lt_of_lt_of_le hlt h2
    obtain ⟨n2, hn2⟩ : ∃ n2, uv.ant_2_array.get? p.1 = some n2 :=
      ⟨_, List.get?_eq_get hlt2⟩
    obtain ⟨i1, hf1, hi1⟩ := findIdx_of_mem _ _ (h3 p.2 hmem1)
    obtain ⟨i2, hf2, hi2⟩ :=
      findIdx_of_mem _ _ (h4 n2 (List.get?_mem hn2))
    obtain ⟨a1, hg1⟩ : ∃ a1, ants.get? i1 = some a1 :=
      ⟨_, List.get?_eq_get (lt_of_lt_of_le hi1 hlen)⟩
    obtain ⟨a2, hg2⟩ : ∃ a2, ants.get? i2 = some a2 :=
      ⟨_, List.get?_eq_get (lt_of_lt_of_le hi2 hlen)⟩
    exact ⟨mkBaseline a1 a2, by simp only [hn2, hf1, hf2, hg1, hg2]⟩
  obtain ⟨bls, hbls, hblen, hmem⟩ := exceptMapM_ok _ _ hall
  refine ⟨bls, hbls, by simpa using hblen, ?_⟩
  intro bl hbl
  obtain ⟨p, _, hfb⟩ := hmem bl hbl
  cases hn2 : uv.ant_2_array.get? p.1 with
  | none =>
      simp only [hn2] at hfb
      exact absurd hfb (by simp)
  | some n2 =>
      simp only [hn2] at hfb
      cases hf1 : uv.antenna_numbers.findIdx? (fun n => n = p.2) with
      | none =>
          simp only [hf1] at hfb
          exact absurd hfb (by simp)
      | some i1 =>
          cases hf2 : uv.antenna_numbers.findIdx? (fun n => n = n2) with
          | none =>
              simp only [hf1, hf2] at hfb
              exact absurd hfb (by simp)
          | some i2 =>
              simp only [hf1, hf2] at hfb
              cases hg1 : ants.get? i1 with
              | none =>
                  simp only [hg1] at hfb
                  exact absurd hfb (by simp)
              | some a1 =>
                  cases hg2 : ants.get? i2 with
                  | none =>
                      simp only [hg1, hg2] at hfb
                      exact absurd hfb (by simp)
                  | some a2 =>
                      simp only [hg1, hg2, Except.ok.injEq] at hfb
                      rw [← hfb]
                      exact ⟨List.get?_mem hg1, List.get?_mem hg2⟩

/-- C9: with no beam assignment supplied, task building fails with the
configuration error exactly when the beam list has more than one element;
with a single beam it succeeds (on index-wellformed input), every antenna
is assigned beam id 0, and every produced task references only beam-id-0
antennas. -/
theorem uvdata_to_task_list_beam_defaults (A : Astro) (uv : UVDataIn)
    (sources : List Source) (beam_list : List AnalyticBeam) (row : List ℝ)
    (hrow : uv.freq_array.get? 0 = some row) (hwf : uv.wellformed row) :
    (1 < beam_list.length →
      uvdata_to_task_list A uv sources beam_list none =
        Except.error
          "beam_dict must be supplied if beam_list has more than one element.") ∧
    (beam_list.length = 1 →
      ∃ ants tasks, buildAntennas uv none = Except.ok ants ∧
        (∀ a ∈ ants, a.beam_id = 0) ∧
        uvdata_to_task_list A uv sources beam_list none = Except.ok tasks ∧
        ∀ tk ∈ tasks, tk.baseline.antenna1.beam_id = 0 ∧
          tk.baseline.antenna2.beam_id = 0) := by
  obtain ⟨h1, h2, h3, h4, h5, h6, h7, h8⟩ := hwf
  constructor
  · intro hlen
    unfold uvdata_to_task_list
    simp only [hrow]
    rw [if_pos ⟨hlen, rfl⟩]
  · intro hlen
    obtain ⟨ants, hants, halen, habeam⟩ := buildAntennas_ok uv h1
    obtain ⟨bls, hbls, hblen, hbmem⟩ :=
      buildBaselines_ok uv ants (halen ▸ h5) h2 h3 h4
    have hall : ∀ idx ∈ meshIndices uv.Nblts uv.Nfreqs sources.length,
        ∃ tk, (fun (idx : ℕ × ℕ × ℕ) =>
          match bls.get? idx.1, row.get? idx.2.1,
              uv.time_array.get? idx.1, sources.get? idx.2.2 with
          | some bl, some f, some t, some src =>
              Except.ok ({ source := src, time := t, freq := f,
                           baseline := bl,
                           telescope := (⟨uv.telescope_name,
                             A.fromGeocentric uv.telescope_location,
                             beam_list⟩ : Telescope),
                           visibility_vector := none,
                           uvdata_index := (idx.1, 0, idx.2.1) } : UVTask)
          | _, _, _, _ =>
              Except.error "list index out of range") idx = Except.ok tk := by
      intro idx hidx
      obtain ⟨hb, hf, hs⟩ := mem_meshIndices _ _ _ idx hidx
      obtain ⟨bl, hgbl⟩ : ∃ bl, bls.get? idx.1 = some bl :=
        ⟨_, List.get?_eq_get (lt_of_lt_of_le hb (hblen ▸ h6))⟩
      obtain ⟨fv, hgf⟩ : ∃ fv, row.get? idx.2.1 = some fv :=
        ⟨_, List.get?_eq_get (lt_of_lt_of_le hf h8)⟩
      obtain ⟨tv, hgt⟩ : ∃ tv, uv.time_array.get? idx.1 = some tv :=
        ⟨_, List.get?_eq_get (lt_of_lt_of_le hb h7)⟩
      obtain ⟨sv, hgs⟩ : ∃ sv, sources.get? idx.2.2 = some sv :=
        ⟨_, List.get?_eq_get hs⟩
      exact ⟨({ source := sv, time := tv, freq := fv, baseline := bl,
                telescope := ⟨uv.telescope_name,
                  A.fromGeocentric uv.telescope_location, beam_list⟩,
                visibility_vector := none,
                uvdata_index := (idx.1, 0, idx.2.1) } : UVTask),
        by simp only [hgbl, hgf, hgt, hgs]⟩
    obtain ⟨tasks, htasks, _, htmem⟩ :=
      exceptMapM_ok _ (meshIndices uv.Nblts uv.Nfreqs sources.length) hall
    refine ⟨ants, tasks, hants, habeam, ?_, ?_⟩
    · unfold uvdata_to_task_list
      simp only [hrow]
      rw [if_neg (fun hh => absurd hh.1 (by omega))]
      simp only [hants, hbls]
      exact htasks
    · intro tk htk
      obtain ⟨idx, _, hfi⟩ := htmem tk htk
      cases hgbl : bls.get? idx.1 with
      | none =>
          simp only [hgbl] at hfi
          exact absurd hfi (by simp)
      | some bl =>
          cases hgf : row.get? idx.2.1 with
          | none =>
              simp only [hgbl, hgf] at hfi
              exact absurd hfi (by simp)
          | some fv =>
              cases hgt : uv.time_array.get? idx.1 with
              | none =>
                  simp only [hgbl, hgf, hgt] at hfi
                  exact absurd hfi (by simp)
              | some tv =>
                  cases hgs : sources.get? idx.2.2 with
                  | none =>
                      simp only [hgbl, hgf, hgt, hgs] at hfi
                      exact absurd hfi (by simp)
                  | some sv =>
                      simp only [hgbl, hgf, hgt, hgs,
                        Except.ok.injEq] at hfi
                      have hblm := hbmem bl (List.get?_mem hgbl)
                      rw [← hfi]
                      exact ⟨habeam _ hblm.1, habeam _ hblm.2⟩

/-- C9 witness: a concrete 2-antenna, 1-baseline, 1-frequency, 1-time
UVData input with a single uniform beam and no beam assignment. -/
theorem uvdata_to_task_list_beam_defaults_witness :
    (uv0.freq_array.get? 0 = some [150000000] ∧
        uv0.wellformed [150000000]) ∧
      ((1 < [uniformBeam].length →
          uvdata_to_task_list trivAstro uv0 [srcUnpol] [uniformBeam] none =
            Except.error
              "beam_dict must be supplied if beam_list has more than one element.") ∧
        ([uniformBeam].length = 1 →
          ∃ ants tasks, buildAntennas uv0 none = Except.ok ants ∧
            (∀ a ∈ ants, a.beam_id = 0) ∧
            uvdata_to_task_list trivAstro uv0 [srcUnpol] [uniformBeam] none =
              Except.ok tasks ∧
            ∀ tk ∈ tasks, tk.baseline.antenna1.beam_id = 0 ∧
              tk.baseline.antenna2.beam_id = 0)) :=
  ⟨⟨rfl, by constructor <;> simp [uv0, UVDataIn.wellformed]⟩,
    uvdata_to_task_list_beam_defaults trivAstro uv0 [srcUnpol] [uniformBeam]
      [150000000] rfl
      (by constructor <;> simp [uv0, UVDataIn.wellformed])⟩

end

end Pyuvsim
